import Mathlib

/-!
Shallow embedding of `automate_pipeline.py` (`run_dbt_pipeline`).

The driver spawns child processes through `subprocess.run` with
`capture_output=True, text=True`; we model that collaborator as a function
from a command (argument vector) to the completed-process result it yields.
The observable behaviour of one execution is a trace of events: process
spawns (with the exact command passed to the collaborator) and printed
lines, in program order.  The Python function always returns `None`, which
we model as `Unit`; the function returns the pair (return value, trace).
-/

/-- Result of `subprocess.run(..., capture_output=True, text=True)`:
the fields the driver reads (`returncode`, `stdout`, `stderr`). -/
structure CompletedProcess where
  returncode : Int
  stdout : String
  stderr : String
  deriving DecidableEq, Repr

/-- One observable step of the driver: spawning a child process with a
given argument vector, or printing one line. -/
inductive Event where
  | spawn (cmd : List String) : Event
  | printLine (line : String) : Event
  deriving DecidableEq, Repr

/-- `dbt_path = "./dbt-env/bin/dbt"` from the script. -/
def dbt_path : String := "./dbt-env/bin/dbt"

/-- The build-stage command `[dbt_path, "run", "--select", "fct_orders"]`. -/
def buildCmd : List String := [dbt_path, "run", "--select", "fct_orders"]

/-- The test-stage command `[dbt_path, "test", "--select", "fct_orders"]`. -/
def testCmd : List String := [dbt_path, "test", "--select", "fct_orders"]

/-- Shallow embedding of `run_dbt_pipeline`.  `exec` is the process-spawn
collaborator (`subprocess.run`); the result is the Python return value
(always `None`, i.e. `()`) together with the event trace, line by line:

* print the startup banner and the `--- Running Models ---` header;
* spawn the build command and inspect `run_result.returncode`;
* on `0`: print the build-success line, print the tests header, spawn the
  test command, then print either the test-success line or the warning
  line followed by `test_result.stdout`;
* otherwise: print the build-failure line, print `run_result.stderr`, and
  return (the test stage is skipped). -/
def run_dbt_pipeline (exec : List String → CompletedProcess) :
    Unit × List Event :=
  let t0 : List Event :=
    [Event.printLine "🚀 Starting Olist Data Pipeline...",
     Event.printLine "--- Running Models ---"]
  let run_result := exec buildCmd
  let t1 := t0 ++ [Event.spawn buildCmd]
  if run_result.returncode = 0 then
    let t2 := t1 ++
      [Event.printLine "✅ Models built successfully!",
       Event.printLine "--- Running Data Quality Tests ---"]
    let test_result := exec testCmd
    let t3 := t2 ++ [Event.spawn testCmd]
    if test_result.returncode = 0 then
      ((), t3 ++ [Event.printLine "✅ All data tests passed! Revenue is verified."])
    else
      ((), t3 ++
        [Event.printLine "⚠️ Data Quality Alert: Some tests failed!",
         Event.printLine test_result.stdout])
  else
    ((), t1 ++
      [Event.printLine "❌ Model Build Failed!",
       Event.printLine run_result.stderr])

/-- The event trace of one execution of the driver. -/
def pipelineTrace (exec : List String → CompletedProcess) : List Event :=
  (run_dbt_pipeline exec).2

/-- Project a spawn event to its command. -/
def spawnEvt : Event → Option (List String)
  | Event.spawn c => some c
  | Event.printLine _ => none

/-- Project a print event to its line. -/
def printEvt : Event → Option String
  | Event.printLine s => some s
  | Event.spawn _ => none

/-- The commands spawned during a trace, in order. -/
def spawnedCmds (t : List Event) : List (List String) := t.filterMap spawnEvt

/-- The lines printed during a trace, in order. -/
def printedLines (t : List Event) : List String := t.filterMap printEvt

/-- A collaborator on which every command fails with exit status 1. -/
def execFail : List String → CompletedProcess :=
  fun _ => { returncode := 1, stdout := "", stderr := "boom" }

/-- A collaborator on which every command succeeds with exit status 0. -/
def execOk : List String → CompletedProcess :=
  fun _ => { returncode := 0, stdout := "all good", stderr := "" }

/-- A collaborator whose build stage succeeds but whose test stage fails. -/
def execTestFail : List String → CompletedProcess :=
  fun cmd =>
    if cmd = testCmd then { returncode := 1, stdout := "3 tests failed", stderr := "" }
    else { returncode := 0, stdout := "", stderr := "" }

/-- Scenario B collaborator: build exits 1 with stderr "syntax error". -/
def execScenarioB : List String → CompletedProcess :=
  fun _ => { returncode := 1, stdout := "", stderr := "syntax error" }

/-- A collaborator that agrees with `execOk` on the two pipeline commands
but differs everywhere else. -/
def execOkAlt : List String → CompletedProcess :=
  fun cmd =>
    if cmd = buildCmd ∨ cmd = testCmd then execOk cmd
    else { returncode := 7, stdout := "other", stderr := "other" }

/-- C1: if the build-stage subprocess exits with a non-zero status, the
test-stage subprocess is never invoked: exactly one child process is
spawned in total (the build command), and the function returns after the
build-failure branch. -/
theorem build_failure_skips_tests (exec : List String → CompletedProcess)
    (h : (exec buildCmd).returncode ≠ 0) :
    spawnedCmds (pipelineTrace exec) = [buildCmd] ∧
      Event.spawn testCmd ∉ pipelineTrace exec := by
  constructor
  · simp [pipelineTrace, run_dbt_pipeline, h, spawnedCmds, spawnEvt]
  · simp [pipelineTrace, run_dbt_pipeline, h]
    decide

theorem build_failure_skips_tests_witness :
    (execFail buildCmd).returncode ≠ 0 ∧
      (spawnedCmds (pipelineTrace execFail) = [buildCmd] ∧
        Event.spawn testCmd ∉ pipelineTrace execFail) :=
  ⟨by decide, build_failure_skips_tests execFail (by decide)⟩

/-- C2: if the build-stage subprocess exits with status 0, the test-stage
subprocess is invoked exactly once, after the build spawn, and both spawned
commands carry the same selection argument `["--select", "fct_orders"]`. -/
theorem build_success_runs_tests (exec : List String → CompletedProcess)
    (h : (exec buildCmd).returncode = 0) :
    spawnedCmds (pipelineTrace exec) = [buildCmd, testCmd] ∧
      buildCmd.drop 2 = ["--select", "fct_orders"] ∧
      testCmd.drop 2 = ["--select", "fct_orders"] := by
  refine ⟨?_, by decide, by decide⟩
  by_cases he : (exec testCmd).returncode = 0 <;>
    simp [pipelineTrace, run_dbt_pipeline, h, he, spawnedCmds, spawnEvt]

theorem build_success_runs_tests_witness :
    (execOk buildCmd).returncode = 0 ∧
      (spawnedCmds (pipelineTrace execOk) = [buildCmd, testCmd] ∧
        buildCmd.drop 2 = ["--select", "fct_orders"] ∧
        testCmd.drop 2 = ["--select", "fct_orders"]) :=
  ⟨by decide, build_success_runs_tests execOk (by decide)⟩

/-- C3: if the build-stage subprocess exits with a non-zero status, the
driver prints exactly the startup banner, the models header, the
build-failure indicator and then the captured standard-error stream of the
build stage, and it returns normally (with the usual `None` value). -/
theorem build_failure_prints_stderr (exec : List String → CompletedProcess)
    (h : (exec buildCmd).returncode ≠ 0) :
    printedLines (pipelineTrace exec) =
      ["🚀 Starting Olist Data Pipeline...",
       "--- Running Models ---",
       "❌ Model Build Failed!",
       (exec buildCmd).stderr] ∧
      (run_dbt_pipeline exec).1 = () := by
  refine ⟨?_, rfl⟩
  simp [pipelineTrace, run_dbt_pipeline, h, printedLines, printEvt]

theorem build_failure_prints_stderr_witness :
    (execFail buildCmd).returncode ≠ 0 ∧
      (printedLines (pipelineTrace execFail) =
        ["🚀 Starting Olist Data Pipeline...",
         "--- Running Models ---",
         "❌ Model Build Failed!",
         (execFail buildCmd).stderr] ∧
        (run_dbt_pipeline execFail).1 = ()) :=
  ⟨by decide, build_failure_prints_stderr execFail (by decide)⟩

/-- C4: if the build stage succeeds and the test-stage subprocess exits
with status 0, the printed transcript is exactly the five fixed status
lines ending in the success indicator; in particular no print of the test
stage's captured standard output occurs. -/
theorem tests_pass_prints_success (exec : List String → CompletedProcess)
    (hb : (exec buildCmd).returncode = 0)
    (ht : (exec testCmd).returncode = 0) :
    printedLines (pipelineTrace exec) =
      ["🚀 Starting Olist Data Pipeline...",
       "--- Running Models ---",
       "✅ Models built successfully!",
       "--- Running Data Quality Tests ---",
       "✅ All data tests passed! Revenue is verified."] := by
  simp [pipelineTrace, run_dbt_pipeline, hb, ht, printedLines, printEvt]

theorem tests_pass_prints_success_witness :
    ((execOk buildCmd).returncode = 0 ∧ (execOk testCmd).returncode = 0) ∧
      printedLines (pipelineTrace execOk) =
        ["🚀 Starting Olist Data Pipeline...",
         "--- Running Models ---",
         "✅ Models built successfully!",
         "--- Running Data Quality Tests ---",
         "✅ All data tests passed! Revenue is verified."] :=
  ⟨⟨by decide, by decide⟩, tests_pass_prints_success execOk (by decide) (by decide)⟩

/-- C5: if the build stage succeeds and the test-stage subprocess exits
with a non-zero status, the driver prints the warning indicator followed by
the test stage's captured standard output, and still returns normally (the
test failure is non-fatal). -/
theorem tests_fail_prints_warning (exec : List String → CompletedProcess)
    (hb : (exec buildCmd).returncode = 0)
    (ht : (exec testCmd).returncode ≠ 0) :
    printedLines (pipelineTrace exec) =
      ["🚀 Starting Olist Data Pipeline...",
       "--- Running Models ---",
       "✅ Models built successfully!",
       "--- Running Data Quality Tests ---",
       "⚠️ Data Quality Alert: Some tests failed!",
       (exec testCmd).stdout] ∧
      (run_dbt_pipeline exec).1 = () := by
  refine ⟨?_, rfl⟩
  simp [pipelineTrace, run_dbt_pipeline, hb, ht, printedLines, printEvt]

theorem tests_fail_prints_warning_witness :
    ((execTestFail buildCmd).returncode = 0 ∧
        (execTestFail testCmd).returncode ≠ 0) ∧
      (printedLines (pipelineTrace execTestFail) =
        ["🚀 Starting Olist Data Pipeline...",
         "--- Running Models ---",
         "✅ Models built successfully!",
         "--- Running Data Quality Tests ---",
         "⚠️ Data Quality Alert: Some tests failed!",
         (execTestFail testCmd).stdout] ∧
        (run_dbt_pipeline execTestFail).1 = ()) :=
  ⟨⟨by decide, by decide⟩,
    tests_fail_prints_warning execTestFail (by decide) (by decide)⟩

/-- C6: the driver's own result is the same for every execution — Python's
`run_dbt_pipeline` returns `None` on every path, so a caller cannot
distinguish test success from test failure (or even build failure) by the
driver's return value or exit status. -/
theorem driver_return_value_uniform
    (e1 e2 : List String → CompletedProcess) :
    (run_dbt_pipeline e1).1 = (run_dbt_pipeline e2).1 := rfl

/-- C7: the build spawn strictly precedes any test spawn (the spawned
command list is `[buildCmd, testCmd]` or just `[buildCmd]`, in that order),
and the test command is spawned only when the build stage exited with
status 0. -/
theorem build_precedes_test (exec : List String → CompletedProcess) :
    spawnedCmds (pipelineTrace exec) =
      (if (exec buildCmd).returncode = 0 then [buildCmd, testCmd]
        else [buildCmd]) ∧
      (Event.spawn testCmd ∈ pipelineTrace exec →
        (exec buildCmd).returncode = 0) := by
  by_cases hb : (exec buildCmd).returncode = 0
  · refine ⟨?_, fun _ => hb⟩
    by_cases ht : (exec testCmd).returncode = 0 <;>
      simp [pipelineTrace, run_dbt_pipeline, hb, ht, spawnedCmds, spawnEvt]
  · constructor
    · simp [pipelineTrace, run_dbt_pipeline, hb, spawnedCmds, spawnEvt]
    · intro hmem
      exact absurd hmem (by simp [pipelineTrace, run_dbt_pipeline, hb]; decide)

/-- C8: scenario B — the collaborator exits 1 with stderr "syntax error"
on the build command; the transcript is the banner, the models header, the
build-failure line and the literal text "syntax error", and the
collaborator is invoked exactly once. -/
theorem scenario_b_transcript :
    printedLines (pipelineTrace execScenarioB) =
      ["🚀 Starting Olist Data Pipeline...",
       "--- Running Models ---",
       "❌ Model Build Failed!",
       "syntax error"] ∧
      (spawnedCmds (pipelineTrace execScenarioB)).length = 1 := by
  constructor <;> rfl

/-- C9: every command passed to the process-spawn collaborator is one of
the two fixed commands — engine path "./dbt-env/bin/dbt", selection
`["--select", "fct_orders"]`, differing only in the verb ("run" vs
"test") — and at most two child processes are spawned per call. -/
theorem spawned_command_shape (exec : List String → CompletedProcess)
    (cmd : List String) (h : cmd ∈ spawnedCmds (pipelineTrace exec)) :
    (cmd = buildCmd ∨ cmd = testCmd) ∧
      buildCmd = [dbt_path, "run", "--select", "fct_orders"] ∧
      testCmd = [dbt_path, "test", "--select", "fct_orders"] ∧
      (spawnedCmds (pipelineTrace exec)).length ≤ 2 := by
  refine ⟨?_, rfl, rfl, ?_⟩
  · by_cases hb : (exec buildCmd).returncode = 0
    · by_cases ht : (exec testCmd).returncode = 0 <;>
        simpa [pipelineTrace, run_dbt_pipeline, hb, ht, spawnedCmds,
          spawnEvt] using h
    · left
      simpa [pipelineTrace, run_dbt_pipeline, hb, spawnedCmds, spawnEvt]
        using h
  · by_cases hb : (exec buildCmd).returncode = 0
    · by_cases ht : (exec testCmd).returncode = 0 <;>
        simp [pipelineTrace, run_dbt_pipeline, hb, ht, spawnedCmds, spawnEvt]
    · simp [pipelineTrace, run_dbt_pipeline, hb, spawnedCmds, spawnEvt]

theorem spawned_command_shape_witness :
    buildCmd ∈ spawnedCmds (pipelineTrace execOk) ∧
      ((buildCmd = buildCmd ∨ buildCmd = testCmd) ∧
        buildCmd = [dbt_path, "run", "--select", "fct_orders"] ∧
        testCmd = [dbt_path, "test", "--select", "fct_orders"] ∧
        (spawnedCmds (pipelineTrace execOk)).length ≤ 2) :=
  ⟨by decide, spawned_command_shape execOk buildCmd (by decide)⟩

/-- C10: determinism of the transcript — if two collaborators yield the
same build-stage result and, whenever the build succeeds, the same
test-stage result, the two executions are indistinguishable: the whole
result (return value and full event trace, hence every printed line) is
identical.  The driver consults nothing else. -/
theorem transcript_deterministic (e1 e2 : List String → CompletedProcess)
    (hb : e1 buildCmd = e2 buildCmd)
    (ht : (e1 buildCmd).returncode = 0 → e1 testCmd = e2 testCmd) :
    run_dbt_pipeline e1 = run_dbt_pipeline e2 := by
  by_cases h0 : (e2 buildCmd).returncode = 0
  · have ht' := ht (by rw [hb]; exact h0)
    simp [run_dbt_pipeline, hb, ht']
  · simp [run_dbt_pipeline, hb, h0]

theorem transcript_deterministic_witness :
    (execOk buildCmd = execOkAlt buildCmd ∧
        ((execOk buildCmd).returncode = 0 →
          execOk testCmd = execOkAlt testCmd)) ∧
      run_dbt_pipeline execOk = run_dbt_pipeline execOkAlt :=
  ⟨⟨by decide, fun _ => by decide⟩,
    transcript_deterministic execOk execOkAlt (by decide) (fun _ => by decide)⟩

theorem driver_return_value_uniform_witness :
    (run_dbt_pipeline execOk).1 = (run_dbt_pipeline execFail).1 :=
  driver_return_value_uniform execOk execFail

theorem build_precedes_test_witness :
    spawnedCmds (pipelineTrace execOk) =
      (if (execOk buildCmd).returncode = 0 then [buildCmd, testCmd]
        else [buildCmd]) ∧
      (Event.spawn testCmd ∈ pipelineTrace execOk →
        (execOk buildCmd).returncode = 0) :=
  build_precedes_test execOk
